import Mathlib

/-!
Shallow embedding of the styling-property subsystem of the mx toolkit
(src/mx/mx-types.c and src/mx/mx-stylable.c), together with theorems
settling the specification claims about it.

Machine integers are modelled as unbounded `Int` (no claim exercises
overflow); fallible C code (a dereference that can fault) returns
`Option`; the C `NULL` string is `Option.none`.
-/

namespace Mx

/-! ## Value coercion library (src/mx/mx-types.c) -/

/-- The `MxPadding` record: four edge insets (top, right, bottom, left). -/
structure MxPadding where
  top : Int
  right : Int
  bottom : Int
  left : Int
deriving Repr, DecidableEq

/-- The `MxBorderImage` record: a uri plus four slice insets. -/
structure MxBorderImage where
  uri : String
  top : Int
  right : Int
  bottom : Int
  left : Int
deriving Repr, DecidableEq

/-- The characters C's `isspace` accepts (used by `atoi` to skip leading
whitespace). -/
def isCSpace (c : Char) : Bool :=
  c = ' ' || c = '\t' || c = '\n' || c = '\x0b' || c = '\x0c' || c = '\r'

/-- Digit-accumulating loop of C `atoi`: consume decimal digits, stop at the
first non-digit. -/
def atoiDigits : List Char → Nat → Nat
  | c :: cs, acc =>
      if c.isDigit then atoiDigits cs (acc * 10 + (c.toNat - 48)) else acc
  | [], acc => acc

/-- Optional sign handling of C `atoi`. -/
def atoiSigned : List Char → Int
  | '+' :: cs => (atoiDigits cs 0 : Int)
  | '-' :: cs => -(atoiDigits cs 0 : Int)
  | cs => (atoiDigits cs 0 : Int)

/-- C `atoi`: skip leading whitespace, optional sign, then decimal digits;
a token with no leading digits yields 0.  Overflow is not modelled (the
result is an unbounded `Int`). -/
def atoi (s : String) : Int :=
  atoiSigned (s.toList.dropWhile isCSpace)

/-- Splitting loop shared by `g_strsplit (str, " ", 0)` and
`g_strsplit_set (str, delims, 0)`: cut the character list at every
delimiter character, keeping empty tokens between adjacent delimiters. -/
def gSplitAux (delim : Char → Bool) : List Char → List String
  | [] => [""]
  | c :: cs =>
      match gSplitAux delim cs with
      | [] => [""]
      | t :: ts =>
          if delim c then "" :: t :: ts
          else (String.singleton c ++ t) :: ts

/-- GLib string splitting on a set of delimiter characters, with
`max_tokens = 0`: empty tokens are kept; splitting the empty string
yields the empty vector. -/
def gSplitChars (delim : Char → Bool) (s : String) : List String :=
  if s = "" then [] else gSplitAux delim s.toList

/-- Embedding of `mx_padding_from_string` (src/mx/mx-types.c:19-68): split the string on
the `" "` separator and switch on the token count; token counts other
than 1-4 (and a NULL string) leave the all-zero padding. -/
def mx_padding_from_string (str : Option String) : MxPadding :=
  match str with
  | none => ⟨0, 0, 0, 0⟩
  | some s =>
      let strv := gSplitChars (fun c => c == ' ') s
      match strv with
      | [a] => ⟨atoi a, atoi a, atoi a, atoi a⟩
      | [a, b] => ⟨atoi a, atoi b, atoi a, atoi b⟩
      | [a, b, c] => ⟨atoi a, atoi b, atoi c, atoi b⟩
      | [a, b, c, d] => ⟨atoi a, atoi b, atoi c, atoi d⟩
      | _ => ⟨0, 0, 0, 0⟩

/-- The delimiter set `" (\"')"` of `g_strsplit_set` in
`mx_border_image_set_from_string`. -/
def isBorderDelim (c : Char) : Bool :=
  c == ' ' || c == '(' || c == '"' || c == Char.ofNat 39 || c == ')'

/-- Read of `strv[i]` as a token that is known to exist (returns `""` out of
range; every use below is guarded by the token count as in the C code). -/
def tokAt (strv : List String) (i : Nat) : String :=
  (strv.get? i).getD ""

/-- Embedding of `g_path_get_dirname`: the directory component of a file name — text up
to the last `/` (consecutive trailing separators of the base stripped),
`"."` when there is no separator, `"/"` when only separators precede the
base. -/
def g_path_get_dirname (p : String) : String :=
  let cs := p.toList
  if cs.contains '/' then
    let afterBase := (cs.reverse.dropWhile (fun c => c ≠ '/')).dropWhile (fun c => c = '/')
    if afterBase = [] then "/" else String.mk afterBase.reverse
  else "."

/-- The `n_tokens == 6/7/8/9` edge-assignment chain of
`mx_border_image_set_from_string` (src/mx/mx-types.c:160-182), as a
(top, right, bottom, left) quadruple; any other count leaves the zero
edges of the `{ 0, }` initializer. -/
def borderEdgeTable (strv : List String) : Int × Int × Int × Int :=
  let n := strv.length
  if n = 6 then
    (atoi (tokAt strv 5), atoi (tokAt strv 5), atoi (tokAt strv 5), atoi (tokAt strv 5))
  else if n = 7 then
    (atoi (tokAt strv 5), atoi (tokAt strv 6), atoi (tokAt strv 5), atoi (tokAt strv 6))
  else if n = 8 then
    (atoi (tokAt strv 5), atoi (tokAt strv 6), atoi (tokAt strv 7), atoi (tokAt strv 6))
  else if n = 9 then
    (atoi (tokAt strv 5), atoi (tokAt strv 6), atoi (tokAt strv 7), atoi (tokAt strv 8))
  else (0, 0, 0, 0)

/-- Build an `MxBorderImage` from a uri and a (top, right, bottom, left)
quadruple. -/
def mkBorderImage (uri : String) (e : Int × Int × Int × Int) : MxBorderImage :=
  ⟨uri, e.1, e.2.1, e.2.2.1, e.2.2.2⟩

/-- Embedding of `mx_border_image_set_from_string` (src/mx/mx-types.c:112-185).
`none` models the crash of the C code: after checking only
`n_tokens < 2` and `strv[0] == "url"`, it dereferences `strv[2]`, which
for a two-token vector is the NULL terminator. -/
def mx_border_image_set_from_string (str filename : String) : Option MxBorderImage :=
  if str = "none" then some ⟨"", 0, 0, 0, 0⟩
  else
    let strv := gSplitChars isBorderDelim str
    let n := strv.length
    if n < 2 then
      some ⟨"", 0, 0, 0, 0⟩
    else if tokAt strv 0 ≠ "url" then
      some ⟨"", 0, 0, 0, 0⟩
    else
      match strv.get? 2 with
      | none => none
      | some path =>
          let uri :=
            if path.toList.head? = some '/' then path
            else g_path_get_dirname filename ++ "/" ++ path
          some (mkBorderImage uri (borderEdgeTable strv))

/-! ## Stylable capability: style attachment (src/mx/mx-stylable.c)

Styles are identified by `Nat` ids; `Option Nat` is a possibly-NULL
`MxStyle *`.  An object's GObject data table (`qdata`) is a map from
quark strings to style ids — `g_object_set_data (obj, key, v)` and
`g_object_set_qdata (obj, quark)` share this one table, keyed by the
quark interned from the key string.  Reference-count traffic and signal
emissions are recorded as an event trace. -/

/-- Events produced by a `mx_stylable_set_style` call: style reference
count changes, the glib criticals from `g_object_ref`/`g_object_unref`
on NULL, the `style-changed` signal emission (with its payload), and the
generic `notify` for the "style" property. -/
inductive Ev where
  | retain (s : Nat)
  | release (s : Nat)
  | warnRefNull
  | warnUnrefNull
  | emitStyleChanged (oldStyle : Option Nat)
  | notifyStyleProp
deriving Repr, DecidableEq

/-- Per-object GObject data table: quark string → stored style id. -/
structure ObjState where
  qdata : List (String × Nat)
deriving Repr, DecidableEq

/-- Lookup of `g_object_get_qdata` / `g_object_get_data`: look a quark up in the
object's data table. -/
def lookupQ (key : String) (st : ObjState) : Option Nat :=
  (st.qdata.find? (fun kv => kv.1 == key)).map (fun kv => kv.2)

/-- Store of `g_object_set_qdata_full`: replace the value under `key`.
(The destroy notification for a previously stored value is emitted by
the caller below, as glib does when replacing.) -/
def setQ (key : String) (v : Nat) (st : ObjState) : ObjState :=
  { qdata := (key, v) :: st.qdata.filter (fun kv => kv.1 != key) }

/-- The quark `mx_stylable_set_style`'s default branch stores the style
under (src/mx/mx-stylable.c:116). -/
def quark_style : String := "mx-stylable-style-quark"

/-- The data key the default `mx_stylable_get_style` reads
(src/mx/mx-stylable.c:575). -/
def get_style_key : String := "mx-stylable-style"

/-- Embedding of `mx_stylable_get_style` (src/mx/mx-stylable.c:564-576), default branch
(no `get_style` override in the interface): `g_object_get_data` with the
key `"mx-stylable-style"`. -/
def mx_stylable_get_style (st : ObjState) : Option Nat :=
  lookupQ get_style_key st

/-- Embedding of `mx_stylable_set_style` (src/mx/mx-stylable.c:590-619), default branch
(no `set_style` override): read the old style via
`mx_stylable_get_style` and ref it (a glib critical no-op on NULL);
ref_sink the new style and store it under `quark_style`, the
replacement releasing any previously stored style via its destroy
notify; emit `style-changed` with the old style as payload; unref the
old style; `g_object_notify` for the "style" property.  Returns the new
object state and the event trace in program order. -/
def mx_stylable_set_style (st : ObjState) (style : Nat) : ObjState × List Ev :=
  let old := mx_stylable_get_style st
  let refOld : List Ev :=
    match old with
    | none => [Ev.warnRefNull]
    | some o => [Ev.retain o]
  let stored := lookupQ quark_style st
  let setEvs : List Ev :=
    Ev.retain style ::
      (match stored with
       | none => []
       | some v => [Ev.release v])
  let st' := setQ quark_style style st
  let unrefOld : List Ev :=
    match old with
    | none => [Ev.warnUnrefNull]
    | some o => [Ev.release o]
  (st', refOld ++ setEvs ++ [Ev.emitStyleChanged old] ++ unrefOld ++ [Ev.notifyStyleProp])

/-! ## Style-property registry (src/mx/mx-stylable.c, GParamSpecPool)

A `GType` is modelled by its ancestor chain of type names, most derived
first (`[]` is `G_TYPE_INVALID`); the parent type is the tail. -/

/-- A style property descriptor (`GParamSpec`): name, flags, and the
`quark_real_owner` provenance stamp `mx_stylable_iface_install_property`
attaches. -/
structure GParamSpec where
  name : String
  readable : Bool
  writable : Bool
  construct : Bool
  construct_only : Bool
  real_owner : Option String
deriving Repr, DecidableEq

/-- A GType: its chain of type names, most derived first. -/
abbrev GType := List String

/-- Name of a type, as `g_type_name` returns it (the most derived name of the chain). -/
def typeName (t : GType) : String := (t.head?).getD ""

/-- The process-wide `GParamSpecPool` of style properties:
(descriptor, owner type) pairs. -/
structure GParamSpecPool where
  entries : List (GParamSpec × GType)
deriving Repr, DecidableEq

/-- Embedding of `g_param_spec_pool_lookup` with `walk_ancestors = FALSE`: only a
descriptor installed for exactly `t` matches. -/
def pool_lookup_exact (pool : GParamSpecPool) (name : String) (t : GType) : Option GParamSpec :=
  (pool.entries.find? (fun e => e.1.name == name && e.2 == t)).map (fun e => e.1)

/-- The nonempty suffixes of a type's chain: the type itself, then each
ancestor in turn. -/
def typeAncestry : GType → List GType
  | [] => []
  | n :: rest => (n :: rest) :: typeAncestry rest

/-- Embedding of `g_param_spec_pool_lookup`: with `walk_ancestors = TRUE` the requested
type's chain is walked most-derived-first and the nearest match wins;
with `FALSE` only the exact type matches. -/
def g_param_spec_pool_lookup (pool : GParamSpecPool) (name : String) (t : GType)
    (walk_ancestors : Bool) : Option GParamSpec :=
  if walk_ancestors then
    (typeAncestry t).findSome? (fun ty => pool_lookup_exact pool name ty)
  else
    pool_lookup_exact pool name t

/-- Embedding of `mx_stylable_iface_install_property` (src/mx/mx-stylable.c:304-335):
`g_return_if_fail` rejects an invalid owner type, a non-readable
descriptor, and a construct/construct-only descriptor (each a non-fatal
diagnostic and a no-op); a descriptor whose name is already installed
for exactly `owner_type` is rejected with a `g_warning`; otherwise the
descriptor is stamped with the owner type's name under
`quark_real_owner` and inserted.  The second component counts the
diagnostics emitted. -/
def mx_stylable_iface_install_property (pool : GParamSpecPool) (owner_type : GType)
    (pspec : GParamSpec) : GParamSpecPool × Nat :=
  if owner_type = [] then (pool, 1)
  else if ¬ pspec.readable then (pool, 1)
  else if pspec.construct_only ∨ pspec.construct then (pool, 1)
  else
    match pool_lookup_exact pool pspec.name owner_type with
    | some _ => (pool, 1)
    | none =>
        ({ entries := ({ pspec with real_owner := some (typeName owner_type) }, owner_type)
             :: pool.entries }, 0)

/-! ## Notification queue (freeze/thaw coalescing) -/

/-- Modelled from the spec: the per-object notification queue of §4.2 —
`gobjectnotifyqueue.c` is GLib code included by src/mx/mx-stylable.c,
not part of this repository's sources — a freeze counter plus the
pending set of property names, deduplicated. -/
structure NotifyQueue where
  freeze_count : Nat
  pspecs : List String
deriving Repr, DecidableEq

/-- Notification-side state of one stylable object: its (lazily created)
queue, the trace of `style-notify` emissions dispatched so far, and the
count of diagnostics emitted. -/
structure NQState where
  queue : Option NotifyQueue
  dispatched : List String
  warnings : Nat
deriving Repr, DecidableEq

/-- Modelled from the spec: `freeze` (§4.2) — create the queue on first
use, then increment the freeze counter. -/
def g_object_notify_queue_freeze (st : NQState) : NQState :=
  match st.queue with
  | none => { st with queue := some { freeze_count := 1, pspecs := [] } }
  | some q => { st with queue := some { q with freeze_count := q.freeze_count + 1 } }

/-- Modelled from the spec: `enqueue` into a frozen queue (§4.2) — add the
property to the pending set unless already present (idempotent dedup). -/
def g_object_notify_queue_add (st : NQState) (name : String) : NQState :=
  match st.queue with
  | none => st
  | some q =>
      if name ∈ q.pspecs then st
      else { st with queue := some { q with pspecs := name :: q.pspecs } }

/-- Modelled from the spec: `thaw` (§4.2) — decrement the freeze counter;
on reaching zero, dispatch one `style-notify` per distinct pending
property (via `mx_stylable_notify_dispatcher`,
src/mx/mx-stylable.c:72-83) and destroy the queue. -/
def g_object_notify_queue_thaw (st : NQState) : NQState :=
  match st.queue with
  | none => st
  | some q =>
      match q.freeze_count with
      | 0 => st
      | 1 => { queue := none, dispatched := st.dispatched ++ q.pspecs,
               warnings := st.warnings }
      | Nat.succ (Nat.succ n) =>
          { st with queue := some { q with freeze_count := n + 1 } }

/-- Embedding of `mx_stylable_freeze_notify` (src/mx/mx-stylable.c:201-209). -/
def mx_stylable_freeze_notify (st : NQState) : NQState :=
  g_object_notify_queue_freeze st

/-- Embedding of `mx_stylable_thaw_notify` (src/mx/mx-stylable.c:211-230): if the object
has no queue or its freeze count is zero, emit a `g_warning` and do
nothing; otherwise thaw. -/
def mx_stylable_thaw_notify (st : NQState) : NQState :=
  match st.queue with
  | none => { st with warnings := st.warnings + 1 }
  | some q =>
      if q.freeze_count = 0 then { st with warnings := st.warnings + 1 }
      else g_object_notify_queue_thaw st

/-- Embedding of `mx_stylable_notify` (src/mx/mx-stylable.c:232-264): look the property
up in the style-property pool (walking ancestors) for the object's
type; unknown names get a `g_warning`; otherwise freeze, add, thaw —
dispatching at once when the object was not already frozen. -/
def mx_stylable_notify (pool : GParamSpecPool) (objType : GType) (st : NQState)
    (property_name : String) : NQState :=
  match g_param_spec_pool_lookup pool property_name objType true with
  | none => { st with warnings := st.warnings + 1 }
  | some _ =>
      g_object_notify_queue_thaw
        (g_object_notify_queue_add (g_object_notify_queue_freeze st) property_name)

/-! ## Spec-side definitions

These follow the specification's words (not the C code) and are compared
with the embedded functions by the refinement theorems below. -/

/-- Spec-side positional shorthand of §4.4: 1 token sets all four edges;
2 tokens set top/bottom from token 0 and left/right from token 1;
3 tokens set top, left/right, bottom; 4 tokens set top, right, bottom,
left in that order; any other token count gives the all-zero quadruple.
The result is (top, right, bottom, left). -/
def boxShorthand (toks : List String) : Int × Int × Int × Int :=
  match toks with
  | [a] => (atoi a, atoi a, atoi a, atoi a)
  | [a, b] => (atoi a, atoi b, atoi a, atoi b)
  | [a, b, c] => (atoi a, atoi b, atoi c, atoi b)
  | [a, b, c, d] => (atoi a, atoi b, atoi c, atoi d)
  | _ => (0, 0, 0, 0)

/-- Build an `MxPadding` from a (top, right, bottom, left) quadruple. -/
def mkPaddingOfQuad (e : Int × Int × Int × Int) : MxPadding :=
  ⟨e.1, e.2.1, e.2.2.1, e.2.2.2⟩

/-- Spec-side `parse_box_edges` (§4.4), written from the claim's words:
tokenize the text on the space separator and apply the positional
shorthand; empty or absent text yields the all-zero result. -/
def parse_box_edges_spec (text : Option String) : MxPadding :=
  match text with
  | none => ⟨0, 0, 0, 0⟩
  | some s => mkPaddingOfQuad (boxShorthand (gSplitChars (fun c => c == ' ') s))

/-- A readable, writable, non-construct demo descriptor for witnesses. -/
def psDemo : GParamSpec :=
  { name := "x-spacing", readable := true, writable := true, construct := false,
    construct_only := false, real_owner := none }

/-- A demo pool holding two style properties of the type "Foo", for
witnesses. -/
def demoPool : GParamSpecPool :=
  { entries :=
      [({ name := "p1", readable := true, writable := true, construct := false,
          construct_only := false, real_owner := some "Foo" }, ["Foo"]),
       ({ name := "p2", readable := true, writable := true, construct := false,
          construct_only := false, real_owner := some "Foo" }, ["Foo"])] }

/-! ## Helper lemmas -/

/-- Filtering out entries keyed `k'` does not change a lookup for a
different key `k`. -/
theorem find?_filter_bne (k k' : String) (h : k ≠ k') (l : List (String × Nat)) :
    (l.filter (fun kv => kv.1 != k')).find? (fun kv => kv.1 == k)
      = l.find? (fun kv => kv.1 == k) := by
  induction l with
  | nil => rfl
  | cons a l ih =>
      by_cases ha : a.1 = k'
      · rw [List.filter_cons_of_neg (by simp [ha])]
        rw [List.find?_cons_of_neg _ (by simp [ha, Ne.symm h])]
        exact ih
      · rw [List.filter_cons_of_pos (by simp [ha])]
        by_cases hk : a.1 = k
        · rw [List.find?_cons_of_pos _ (by simp [hk]),
              List.find?_cons_of_pos _ (by simp [hk])]
        · rw [List.find?_cons_of_neg _ (by simp [hk]),
              List.find?_cons_of_neg _ (by simp [hk])]
          exact ih

/-- Storing under one key leaves lookups of a different key unchanged. -/
theorem lookupQ_setQ_of_ne (k k' : String) (v : Nat) (st : ObjState) (h : k ≠ k') :
    lookupQ k (setQ k' v st) = lookupQ k st := by
  simp only [lookupQ, setQ]
  rw [List.find?_cons_of_neg _ (by simp [Ne.symm h])]
  rw [find?_filter_bne k k' h]

/-- The edge-count chain of the C parser agrees with the spec's positional
shorthand applied to the tokens after index 4 — exactly: a total of
6/7/8/9 tokens is 1/2/3/4 trailing tokens. -/
theorem borderEdgeTable_eq_boxShorthand (strv : List String) :
    borderEdgeTable strv = boxShorthand (strv.drop 5) := by
  rcases strv with _ | ⟨a, _ | ⟨b, _ | ⟨c, _ | ⟨d, _ | ⟨e, _ | ⟨f, _ | ⟨g, _ |
    ⟨h, _ | ⟨i, _ | ⟨j, rest⟩⟩⟩⟩⟩⟩⟩⟩⟩⟩ <;> rfl

/-! ## Claim theorems -/

/-- C1: on the default (non-overridden) implementations, the set/get
round-trip FAILS: `mx_stylable_set_style` stores the style under the
quark `"mx-stylable-style-quark"` while `mx_stylable_get_style` reads
the data key `"mx-stylable-style"`, so `get_style` is entirely blind to
`set_style`. In particular a freshly set style is stored but
`get_style` still returns NULL. -/
theorem C1_default_set_get_disconnected :
    (∀ (st : ObjState) (s : Nat),
        mx_stylable_get_style (mx_stylable_set_style st s).1 = mx_stylable_get_style st) ∧
    lookupQ quark_style (mx_stylable_set_style { qdata := [] } 7).1 = some 7 ∧
    mx_stylable_get_style (mx_stylable_set_style { qdata := [] } 7).1 = none ∧
    quark_style ≠ get_style_key := by
  refine ⟨fun st s => ?_, by decide, by decide, by decide⟩
  show lookupQ get_style_key (setQ quark_style s st) = lookupQ get_style_key st
  exact lookupQ_setQ_of_ne get_style_key quark_style s st (by decide)

/-- C2: the bordered-image parser CRASHES on the two-token input
`"url x"`: it checks only `n_tokens < 2` and `strv[0] == "url"` and then
dereferences `strv[2]`, the NULL terminator of a two-token vector
(modelled as `none`).  The second conjunct characterises the crash set
exactly: every other input string returns a descriptor. -/
theorem C2_border_image_crash_two_tokens :
    mx_border_image_set_from_string "url x" "style.css" = none ∧
    ∀ (str filename : String),
      mx_border_image_set_from_string str filename = none ↔
        (str ≠ "none" ∧ (gSplitChars isBorderDelim str).length = 2 ∧
          tokAt (gSplitChars isBorderDelim str) 0 = "url") := by
  refine ⟨by decide, fun str filename => ?_⟩
  unfold mx_border_image_set_from_string
  by_cases h0 : str = "none"
  · simp [h0]
  · rw [if_neg h0]
    by_cases h1 : (gSplitChars isBorderDelim str).length < 2
    · rw [if_pos h1]
      constructor
      · intro hx; exact absurd hx (by simp)
      · rintro ⟨-, h2', -⟩; omega
    · rw [if_neg h1]
      by_cases hurl : tokAt (gSplitChars isBorderDelim str) 0 ≠ "url"
      · rw [if_pos hurl]
        constructor
        · intro hx; exact absurd hx (by simp)
        · rintro ⟨-, -, hu⟩; exact absurd hu hurl
      · rw [if_neg hurl]
        push_neg at hurl
        cases hg : (gSplitChars isBorderDelim str).get? 2 with
        | none =>
            have hle : (gSplitChars isBorderDelim str).length ≤ 2 :=
              List.get?_eq_none.mp hg
            constructor
            · intro _; exact ⟨h0, by omega, hurl⟩
            · intro _; rfl
        | some path =>
            obtain ⟨hlt, -⟩ := List.get?_eq_some.mp hg
            constructor
            · intro hx; exact absurd hx (by simp)
            · rintro ⟨-, h2', -⟩; omega

/-- C3: in the default (non-overridden) path the `style-changed` payload
is STALE: every `mx_stylable_set_style` call emits the result of
`mx_stylable_get_style` on the pre-state, which — by the key mismatch of
C1 — is NULL, not the previously attached style.  After
`set_style(1)`, style 1 is the attached (stored) resource, yet
`set_style(2)` emits `style-changed` with payload NULL and never with
payload 1.  The full trace also shows the emission does precede the
generic "style" notify. -/
theorem C3_style_changed_payload_stale :
    lookupQ quark_style (mx_stylable_set_style { qdata := [] } 1).1 = some 1 ∧
    (mx_stylable_set_style (mx_stylable_set_style { qdata := [] } 1).1 2).2.count
      (Ev.emitStyleChanged (some 1)) = 0 ∧
    (mx_stylable_set_style (mx_stylable_set_style { qdata := [] } 1).1 2).2
      = [Ev.warnRefNull, Ev.retain 2, Ev.release 1, Ev.emitStyleChanged none,
         Ev.warnUnrefNull, Ev.notifyStyleProp] := by
  decide

/-- C4: reference-count symmetry of `mx_stylable_set_style` on the default
path (where the default `get_style` observes NULL): the call retains the
new style exactly once and releases exactly the previously stored style,
exactly once — nothing else is retained or released, on the very first
call (nothing stored, nothing released) as on every later one. -/
theorem C4_set_style_refcount_symmetry (st : ObjState) (s : Nat)
    (hdef : mx_stylable_get_style st = none) (t : Nat) :
    (mx_stylable_set_style st s).2.count (Ev.retain t) = (if t = s then 1 else 0) ∧
    (mx_stylable_set_style st s).2.count (Ev.release t)
      = (if lookupQ quark_style st = some t then 1 else 0) := by
  simp only [mx_stylable_set_style, hdef]
  cases hq : lookupQ quark_style st with
  | none =>
      constructor <;>
        · by_cases hts : t = s <;>
            simp [List.count_cons, List.count_append, hts]
  | some v =>
      constructor
      · by_cases hts : t = s <;>
          simp [List.count_cons, List.count_append, hts]
      · by_cases htv : t = v <;>
          simp [List.count_cons, List.count_append, htv, eq_comm]

/-- C4 witness: a first call on a fresh object retains style 1 once and
releases nothing; a second call releases style 1 exactly once. -/
theorem C4_set_style_refcount_symmetry_witness :
    ((mx_stylable_set_style { qdata := [] } 1).2.count (Ev.retain 1) = 1 ∧
      (mx_stylable_set_style { qdata := [] } 1).2.count (Ev.release 1) = 0) ∧
    ((mx_stylable_set_style (mx_stylable_set_style { qdata := [] } 1).1 2).2.count
        (Ev.retain 2) = 1 ∧
      (mx_stylable_set_style (mx_stylable_set_style { qdata := [] } 1).1 2).2.count
        (Ev.release 1) = 1) := by
  constructor
  · have h := C4_set_style_refcount_symmetry { qdata := [] } 1 (by decide) 1
    simpa using h
  · have h := C4_set_style_refcount_symmetry (mx_stylable_set_style { qdata := [] } 1).1 2
      (by decide) 1
    have h2 := C4_set_style_refcount_symmetry (mx_stylable_set_style { qdata := [] } 1).1 2
      (by decide) 2
    exact ⟨by simpa using h2.1, by simpa using h.2⟩

/-- C5: freeze/thaw coalescing.  With the queue frozen once, the sequence
notify(P1); notify(P2); notify(P1); thaw dispatches exactly two
`style-notify` notifications, one per distinct known property (the
repeated P1 is deduplicated), and destroys the queue; and notifying a
known property while unfrozen dispatches exactly one notification
immediately, leaving no queue behind. -/
theorem C5_freeze_thaw_coalescing (pool : GParamSpecPool) (T : GType)
    (P1 P2 : String) (d : List String) (w : Nat)
    (hne : P1 ≠ P2)
    (h1 : (g_param_spec_pool_lookup pool P1 T true).isSome)
    (h2 : (g_param_spec_pool_lookup pool P2 T true).isSome) :
    ((mx_stylable_thaw_notify
        (mx_stylable_notify pool T
          (mx_stylable_notify pool T
            (mx_stylable_notify pool T
              (mx_stylable_freeze_notify ⟨none, d, w⟩) P1) P2) P1)).dispatched.count P1
        = d.count P1 + 1 ∧
      (mx_stylable_thaw_notify
        (mx_stylable_notify pool T
          (mx_stylable_notify pool T
            (mx_stylable_notify pool T
              (mx_stylable_freeze_notify ⟨none, d, w⟩) P1) P2) P1)).dispatched.count P2
        = d.count P2 + 1 ∧
      (mx_stylable_thaw_notify
        (mx_stylable_notify pool T
          (mx_stylable_notify pool T
            (mx_stylable_notify pool T
              (mx_stylable_freeze_notify ⟨none, d, w⟩) P1) P2) P1)).dispatched.length
        = d.length + 2 ∧
      (mx_stylable_thaw_notify
        (mx_stylable_notify pool T
          (mx_stylable_notify pool T
            (mx_stylable_notify pool T
              (mx_stylable_freeze_notify ⟨none, d, w⟩) P1) P2) P1)).queue = none) ∧
    ((mx_stylable_notify pool T ⟨none, d, w⟩ P1).dispatched = d ++ [P1] ∧
      (mx_stylable_notify pool T ⟨none, d, w⟩ P1).queue = none) := by
  obtain ⟨x1, hx1⟩ := Option.isSome_iff_exists.mp h1
  obtain ⟨x2, hx2⟩ := Option.isSome_iff_exists.mp h2
  have e0 : mx_stylable_freeze_notify ⟨none, d, w⟩
      = ⟨some ⟨1, []⟩, d, w⟩ := rfl
  have e1 : mx_stylable_notify pool T ⟨some ⟨1, []⟩, d, w⟩ P1
      = ⟨some ⟨1, [P1]⟩, d, w⟩ := by
    rw [mx_stylable_notify, hx1]; rfl
  have e2 : mx_stylable_notify pool T ⟨some ⟨1, [P1]⟩, d, w⟩ P2
      = ⟨some ⟨1, [P2, P1]⟩, d, w⟩ := by
    rw [mx_stylable_notify, hx2]
    simp [g_object_notify_queue_freeze, g_object_notify_queue_add,
          g_object_notify_queue_thaw, Ne.symm hne]
  have e3 : mx_stylable_notify pool T ⟨some ⟨1, [P2, P1]⟩, d, w⟩ P1
      = ⟨some ⟨1, [P2, P1]⟩, d, w⟩ := by
    rw [mx_stylable_notify, hx1]
    simp [g_object_notify_queue_freeze, g_object_notify_queue_add,
          g_object_notify_queue_thaw]
  have e4 : mx_stylable_thaw_notify ⟨some ⟨1, [P2, P1]⟩, d, w⟩
      = ⟨none, d ++ [P2, P1], w⟩ := rfl
  have e5 : mx_stylable_notify pool T ⟨none, d, w⟩ P1
      = ⟨none, d ++ [P1], w⟩ := by
    rw [mx_stylable_notify, hx1]; rfl
  rw [e0, e1, e2, e3, e4]
  refine ⟨⟨?_, ?_, ?_, rfl⟩, by rw [e5], by rw [e5]⟩
  · simp [List.count_append, List.count_cons, Ne.symm hne]
  · simp [List.count_append, List.count_cons, hne]
  · simp

/-- C5 witness: the coalescing scenario on a concrete two-property pool. -/
theorem C5_freeze_thaw_coalescing_witness :
    (mx_stylable_thaw_notify
      (mx_stylable_notify demoPool ["Foo"]
        (mx_stylable_notify demoPool ["Foo"]
          (mx_stylable_notify demoPool ["Foo"]
            (mx_stylable_freeze_notify ⟨none, [], 0⟩) "p1") "p2") "p1")).dispatched.count "p1"
      = 1 ∧
    (mx_stylable_thaw_notify
      (mx_stylable_notify demoPool ["Foo"]
        (mx_stylable_notify demoPool ["Foo"]
          (mx_stylable_notify demoPool ["Foo"]
            (mx_stylable_freeze_notify ⟨none, [], 0⟩) "p1") "p2") "p1")).dispatched.length
      = 2 ∧
    (mx_stylable_notify demoPool ["Foo"] ⟨none, [], 0⟩ "p1").dispatched = ["p1"] := by
  have h := C5_freeze_thaw_coalescing demoPool ["Foo"] "p1" "p2" [] 0
    (by decide) (by decide) (by decide)
  exact ⟨by simpa using h.1.1, by simpa using h.1.2.2.1, by simpa using h.2.1⟩

/-- C6: the box-edges parser agrees with the spec's positional shorthand
on every input — 1/2/3/4 space-separated tokens map positionally, any
other token count and empty or NULL text give the all-zero quad, tokens
are parsed `atoi`-style (non-numeric tokens give 0) — together with the
spec's four concrete examples. -/
theorem C6_box_edges_positional :
    (∀ text : Option String, mx_padding_from_string text = parse_box_edges_spec text) ∧
    mx_padding_from_string (some "10") = ⟨10, 10, 10, 10⟩ ∧
    mx_padding_from_string (some "10 20") = ⟨10, 20, 10, 20⟩ ∧
    mx_padding_from_string (some "1 2 3 4") = ⟨1, 2, 3, 4⟩ ∧
    mx_padding_from_string (some "") = ⟨0, 0, 0, 0⟩ ∧
    atoi "abc" = 0 ∧ atoi "17" = 17 := by
  refine ⟨fun text => ?_, by decide, by decide, by decide, by decide, by decide, by decide⟩
  cases text with
  | none => rfl
  | some s =>
      simp only [mx_padding_from_string, parse_box_edges_spec]
      rcases gSplitChars (fun c => c == ' ') s with _ | ⟨a, _ | ⟨b, _ | ⟨c, _ |
        ⟨d, _ | ⟨e, t⟩⟩⟩⟩⟩ <;> rfl

/-- C7: on well-formed input (not "none", first token "url", a third token
present) the bordered-image parser takes token 2 as the path — verbatim
when it starts with `/`, otherwise `dirname(base_path) ++ "/" ++ path` —
and maps a total of exactly 6/7/8/9 tokens through the same positional
shorthand as box edges on the tokens after index 4 (any other count
leaves all edges zero, which is `boxShorthand` of a list not of length
1-4); and the literal "none" yields the empty descriptor. -/
theorem C7_bordered_image_wellformed (str filename : String) :
    (str = "none" → mx_border_image_set_from_string str filename = some ⟨"", 0, 0, 0, 0⟩) ∧
    (str ≠ "none" → ∀ path,
      (gSplitChars isBorderDelim str).get? 0 = some "url" →
      (gSplitChars isBorderDelim str).get? 2 = some path →
      mx_border_image_set_from_string str filename =
        some (mkBorderImage
          (if path.toList.head? = some '/' then path
           else g_path_get_dirname filename ++ "/" ++ path)
          (boxShorthand ((gSplitChars isBorderDelim str).drop 5)))) := by
  constructor
  · intro h
    unfold mx_border_image_set_from_string
    rw [if_pos h]
  · intro hne path h0 h2
    obtain ⟨hlt, -⟩ := List.get?_eq_some.mp h2
    have htok : tokAt (gSplitChars isBorderDelim str) 0 = "url" := by
      unfold tokAt
      rw [h0]
      rfl
    unfold mx_border_image_set_from_string
    rw [if_neg hne, if_neg (by omega : ¬ (gSplitChars isBorderDelim str).length < 2),
        if_neg (fun hcon => hcon htok), h2]
    rw [borderEdgeTable_eq_boxShorthand]

/-- C7 witness: the spec's own example with an absolute quoted path and
four edge tokens. -/
theorem C7_bordered_image_wellformed_witness :
    mx_border_image_set_from_string "url(\"/abs/img.png\") 1 2 3 4" "/a/b/style.css"
      = some ⟨"/abs/img.png", 1, 2, 3, 4⟩ := by
  have h := (C7_bordered_image_wellformed "url(\"/abs/img.png\") 1 2 3 4" "/a/b/style.css").2
    (by decide) "/abs/img.png" (by decide) (by decide)
  rw [h]; decide

/-- C8 counterexample: the same single edge token "3" yields edges
(3,3,3,3) with a quoted path but (0,0,0,0) with a bare path — the quote
characters contribute two extra empty tokens the parser's fixed indices
depend on, so bare and quoted forms do NOT parse alike. -/
theorem C8_quoted_vs_bare_counterexample :
    mx_border_image_set_from_string "url(\"img.png\") 3" "/a/b/style.css"
      = some ⟨"/a/b/img.png", 3, 3, 3, 3⟩ ∧
    mx_border_image_set_from_string "url(img.png) 3" "/a/b/style.css"
      = some ⟨"/a/b/", 0, 0, 0, 0⟩ := by
  decide

/-- C8 amended: with a bare path the tokens are shifted by the two empty
tokens a quoted path would have contributed: the path read is the empty
token 2 (so the uri degenerates to `dirname(base) ++ "/"`), and the
6/7/8/9-total-token edge table starts two tokens late — one edge token
yields zero edges, and with k ≥ 3 numeric tokens the table reads from
the third numeric token on. -/
theorem C8_bare_path_actual_behavior :
    mx_border_image_set_from_string "url(img.png) 7" "/a/b/style.css"
      = some ⟨"/a/b/", 0, 0, 0, 0⟩ ∧
    mx_border_image_set_from_string "url(img.png) 1 2 3" "/a/b/style.css"
      = some ⟨"/a/b/", 3, 3, 3, 3⟩ ∧
    mx_border_image_set_from_string "url(img.png) 1 2 3 4" "/a/b/style.css"
      = some ⟨"/a/b/", 3, 4, 3, 4⟩ ∧
    mx_border_image_set_from_string "url(img.png) 1 2 3 4 5 6" "/a/b/style.css"
      = some ⟨"/a/b/", 3, 4, 5, 6⟩ := by
  decide

/-- C9: the install contract.  A non-readable descriptor is rejected
(diagnostic, pool unchanged); a construct or construct-only descriptor
is rejected; installing a name that already exists for exactly that
owner type is rejected with a diagnostic, leaving the original
descriptor intact; otherwise the descriptor is stored stamped with the
owner type's name as provenance, with no diagnostic. -/
theorem C9_install_property_contract (pool : GParamSpecPool) (owner : GType)
    (p q : GParamSpec) (howner : owner ≠ []) :
    (¬ p.readable → mx_stylable_iface_install_property pool owner p = (pool, 1)) ∧
    (p.construct_only ∨ p.construct →
      mx_stylable_iface_install_property pool owner p = (pool, 1)) ∧
    (p.readable → ¬ p.construct_only → ¬ p.construct →
      pool_lookup_exact pool p.name owner = some q →
      mx_stylable_iface_install_property pool owner p = (pool, 1) ∧
      pool_lookup_exact (mx_stylable_iface_install_property pool owner p).1 p.name owner
        = some q) ∧
    (p.readable → ¬ p.construct_only → ¬ p.construct →
      pool_lookup_exact pool p.name owner = none →
      (mx_stylable_iface_install_property pool owner p).2 = 0 ∧
      pool_lookup_exact (mx_stylable_iface_install_property pool owner p).1 p.name owner
        = some { p with real_owner := some (typeName owner) }) := by
  refine ⟨?_, ?_, ?_, ?_⟩
  · intro hr
    unfold mx_stylable_iface_install_property
    rw [if_neg howner, if_pos hr]
  · intro hc
    unfold mx_stylable_iface_install_property
    rw [if_neg howner]
    by_cases hr : p.readable
    · rw [if_neg (by simp [hr]), if_pos hc]
    · rw [if_pos hr]
  · intro hr hco hc hdup
    unfold mx_stylable_iface_install_property
    rw [if_neg howner, if_neg (by simp [hr]), if_neg (by simp [hco, hc]), hdup]
    exact ⟨rfl, hdup⟩
  · intro hr hco hc hnew
    unfold mx_stylable_iface_install_property
    rw [if_neg howner, if_neg (by simp [hr]), if_neg (by simp [hco, hc]), hnew]
    refine ⟨rfl, ?_⟩
    unfold pool_lookup_exact
    rw [List.find?_cons_of_pos _ (by simp)]
    rfl

/-- C9 witness: a fresh install is stored stamped with the owner name; a
second install of the same (name, owner) pair is a diagnosed no-op that
leaves the original entry intact. -/
theorem C9_install_property_contract_witness :
    ((mx_stylable_iface_install_property { entries := [] } ["FooActor"] psDemo).2 = 0 ∧
      pool_lookup_exact
        (mx_stylable_iface_install_property { entries := [] } ["FooActor"] psDemo).1
        "x-spacing" ["FooActor"] = some { psDemo with real_owner := some "FooActor" }) ∧
    mx_stylable_iface_install_property
      (mx_stylable_iface_install_property { entries := [] } ["FooActor"] psDemo).1
      ["FooActor"] psDemo
      = ((mx_stylable_iface_install_property { entries := [] } ["FooActor"] psDemo).1, 1) := by
  have h1 := (C9_install_property_contract { entries := [] } ["FooActor"] psDemo psDemo
    (by decide)).2.2.2 (by decide) (by decide) (by decide) (by decide)
  have h2 := (C9_install_property_contract
    (mx_stylable_iface_install_property { entries := [] } ["FooActor"] psDemo).1
    ["FooActor"] psDemo { psDemo with real_owner := some "FooActor" }
    (by decide)).2.2.1 (by decide) (by decide) (by decide) (by decide)
  exact ⟨⟨h1.1, h1.2⟩, h2.1⟩

/-- C10: thaw-without-freeze is a diagnosed no-op: on an object with no
notification queue, or a queue whose freeze count is zero, thaw only
emits a warning — nothing is dispatched and neither queue nor freeze
count changes (so the count cannot go below zero). -/
theorem C10_thaw_without_freeze_noop (st : NQState)
    (h : st.queue = none ∨ ∃ q, st.queue = some q ∧ q.freeze_count = 0) :
    mx_stylable_thaw_notify st = { st with warnings := st.warnings + 1 } := by
  rcases h with h | ⟨q, hq, hf⟩
  · unfold mx_stylable_thaw_notify
    rw [h]
  · unfold mx_stylable_thaw_notify
    rw [hq]
    simp [hf, hq]

/-- C10 witness: thaw on a fresh, never-frozen object only bumps the
warning count. -/
theorem C10_thaw_without_freeze_noop_witness :
    mx_stylable_thaw_notify ⟨none, [], 0⟩ = ⟨none, [], 1⟩ := by
  have h := C10_thaw_without_freeze_noop ⟨none, [], 0⟩ (Or.inl rfl)
  simpa using h

end Mx
